import Mathlib

/-!
Verification development for the aiorepl interactive REPL
(src/micropython/aiorepl/aiorepl.py).

The Python source is shallowly embedded:
* strings are modelled as `List Char` (`Str` below);
* the regular expressions `_RE_IMPORT`, `_RE_FROM_IMPORT`, `_RE_GLOBAL` and
  `_RE_ASSIGN` are embedded as direct string matchers (the patterns contain
  no constructs needing backtracking across character classes, so the
  matchers below compute exactly the sets of strings the patterns accept);
* the mutable state of the editing loop in `task` becomes the `Session`
  structure, and each branch of the loop body becomes a function on it;
* the control flow of `execute` is embedded as `runExecute`, parameterised
  by the outcomes of the external evaluator calls (the task awaited on the
  concurrent path, and the eval / exec calls on the direct path); the
  `os.dupterm` mirror, the `micropython.kbd_intr` toggle and the watcher
  task are tracked as an explicit event trace and a dupterm state;
* `time.ticks_ms` timestamps are modelled as integers and
  `time.ticks_diff t pt` as `t - pt` (no wraparound, which is faithful for
  the millisecond ranges the debounce rule compares).
-/

namespace Aiorepl

/-- Python strings are modelled as lists of characters. -/
abbrev Str := List Char

/-- Conversion from Lean string literals to the model representation. -/
def str (s : String) : Str := s.toList

/-- Characters removed by Python str.strip with no arguments. -/
def isPySpace (ch : Char) : Bool :=
  ch = ' ' || ch = '\t' || ch = '\n' || ch = '\r' || ch = '\x0b' || ch = '\x0c'

/-- Python code.strip(): drop leading and trailing whitespace. -/
def pyStrip (s : Str) : Str :=
  ((s.dropWhile isPySpace).reverse.dropWhile isPySpace).reverse

/-- Python substring test: pat in s. -/
def pyIn (pat s : Str) : Bool :=
  s.tails.any fun tl => pat.isPrefixOf tl

/-- Character class [a-zA-Z0-9_] of the _RE_GLOBAL pattern (ASCII only). -/
def identChar (ch : Char) : Bool :=
  ('a' ≤ ch && ch ≤ 'z') || ('A' ≤ ch && ch ≤ 'Z') || ('0' ≤ ch && ch ≤ '9') || ch = '_'

/-- Shared tail ([^ ]+)( as ([^ ]+))? of _RE_IMPORT and _RE_FROM_IMPORT,
applied to the text after the literal prefix; returns group(3) or group(1),
which is how execute extracts the bound name. -/
def importTail (s : Str) : Option Str :=
  let g1 := s.takeWhile fun ch => ch ≠ ' '
  if g1 = [] then none
  else
    let rest := s.drop g1.length
    if (str " as ").isPrefixOf rest then
      let g3 := (rest.drop 4).takeWhile fun ch => ch ≠ ' '
      if g3 = [] then some g1 else some g3
    else some g1

/-- Embedding of _RE_IMPORT.match(code): pattern "^import ([^ ]+)( as ([^ ]+))?";
yields the name execute declares global (group 3 if present, else group 1). -/
def matchImport (s : Str) : Option Str :=
  if (str "import ").isPrefixOf s then importTail (s.drop 7) else none

/-- Embedding of _RE_FROM_IMPORT.match(code):
pattern "^from [^ ]+ import ([^ ]+)( as ([^ ]+))?". -/
def matchFromImport (s : Str) : Option Str :=
  if (str "from ").isPrefixOf s then
    let m := (s.drop 5).takeWhile fun ch => ch ≠ ' '
    if m = [] then none
    else
      let rest := (s.drop 5).drop m.length
      if (str " import ").isPrefixOf rest then importTail (rest.drop 8) else none
  else none

/-- Embedding of _RE_GLOBAL.match(code): pattern "^([a-zA-Z0-9_]+) ?=[^=]". -/
def matchGlobal (s : Str) : Option Str :=
  let nm := s.takeWhile identChar
  if nm = [] then none
  else
    match s.drop nm.length with
    | ' ' :: '=' :: ch :: _ => if ch = '=' then none else some nm
    | '=' :: ch :: _ => if ch = '=' then none else some nm
    | _ => none

/-- Embedding of _RE_ASSIGN.search(code): pattern "[^=]=[^=]" found anywhere. -/
def hasAssign : Str → Bool
  | a :: b :: ch :: rest => ((a != '=') && (b == '=') && (ch != '=')) || hasAssign (b :: ch :: rest)
  | _ => false

/-- The snippet placed in the body of the generated async def __code()
by the concurrent path of execute (lines 49-54 of the source). -/
def asyncBody (code : Str) : Str :=
  match matchImport code <|> matchFromImport code with
  | some nm => str "global " ++ nm ++ str "\n    " ++ code
  | none =>
    match matchGlobal code with
    | some nm => str "global " ++ nm ++ str "\n    " ++ code
    | none => if hasAssign code then code else str "return " ++ code

/-- The full wrapper template of the concurrent path (lines 56-62). -/
def wrapTemplate (body : Str) : Str :=
  str "\nimport asyncio\nasync def __code():\n    " ++ body
    ++ str "\n\n__exec_task = asyncio.create_task(__code())\n"

/-! ## The editing-loop state (function task, lines 135-270) -/

/-- Mutable state of the REPL editing loop.  The fields keep the source
variable names: hist is the ring of 6 optional entries (None initially),
hist_i the next write index, hist_n the retained count, hist_b the browse
depth, cmd the current buffer, curs the cursor offset from the end of cmd,
paste the paste-mode flag, and c / t the byte and timestamp of the most
recently read main-loop byte (the CRLF-debounce state). -/
structure Session where
  hist : List (Option Str)
  hist_i : Nat
  hist_n : Nat
  hist_b : Nat
  cmd : Str
  curs : Nat
  paste : Bool
  c : Nat
  t : Int
deriving Repr, DecidableEq

/-- Initial state of task (lines 138-148). -/
def initSession : Session :=
  { hist := List.replicate 6 none, hist_i := 0, hist_n := 0, hist_b := 0,
    cmd := [], curs := 0, paste := false, c := 0, t := 0 }

/-- Python (i - b) % _HISTORY_LIMIT with _HISTORY_LIMIT = 6; Python %
returns a nonnegative result, which Int.emod matches. -/
def histIdx (i b : Nat) : Nat := (((i : Int) - (b : Int)) % 6).toNat

/-- Pushing the current command into the history ring (lines 174-177). -/
def pushHist (s : Session) : Session :=
  { s with hist := s.hist.set s.hist_i (some s.cmd),
           hist_n := min 5 (s.hist_n + 1),
           hist_i := (s.hist_i + 1) % 6 }

/-- History navigation on an up or down escape key (lines 224-239): stash
the current command at depth hist_b, emit backspace-space-backspace runs
covering the old command, move the depth, reload cmd from the ring and
emit it.  Returns none when the selected slot still holds Python None, in
which case the source would raise on the subsequent write call. -/
def navHist (isPrev : Bool) (s : Session) : Option (Session × Str) :=
  let hist1 := s.hist.set (histIdx s.hist_i s.hist_b) (some s.cmd)
  let clr := List.replicate s.cmd.length '\x08' ++ List.replicate s.cmd.length ' '
      ++ List.replicate s.cmd.length '\x08'
  let b1 := if isPrev then min s.hist_n (s.hist_b + 1) else s.hist_b - 1
  match hist1.getD (histIdx s.hist_i b1) none with
  | some newCmd => some ({ s with hist := hist1, hist_b := b1, cmd := newCmd }, clr ++ newCmd)
  | none => none

/-- Terminal escape sequence ESC [ n dir, as produced by the format
strings of the source. -/
def escSeq (n : Int) (dir : Char) : Str := str "\x1B[" ++ (toString n).toList ++ [dir]

/-- Cursor left (lines 240-244).  The guard compares against
len(cmd) - 1 over the integers, exactly as Python does. -/
def moveLeft (s : Session) : Session × Str :=
  if (s.curs : Int) < (s.cmd.length : Int) - 1 then
    ({ s with curs := s.curs + 1 }, str "\x1B[D")
  else (s, [])

/-- Cursor right (lines 245-249). -/
def moveRight (s : Session) : Session × Str :=
  if s.curs ≠ 0 then ({ s with curs := s.curs - 1 }, str "\x1B[C") else (s, [])

/-- Home key (lines 250-253). -/
def homeKey (s : Session) : Session × Str :=
  ({ s with curs := s.cmd.length }, escSeq ((s.cmd.length : Int) - (s.curs : Int)) 'D')

/-- End key (lines 254-257). -/
def endKey (s : Session) : Session × Str :=
  ({ s with curs := 0 }, escSeq (s.curs : Int) 'C')

/-- Printable byte (lines 262-270).  Python slice cmd[:-curs] is
take (len - curs) and cmd[-curs:] (curs > 0) is drop (len - curs). -/
def insertChar (s : Session) (b : Char) : Session × Str :=
  if s.curs ≠ 0 then
    let n := s.cmd.length
    let cmd1 := s.cmd.take (n - s.curs) ++ [b] ++ s.cmd.drop (n - s.curs)
    ({ s with cmd := cmd1 },
      cmd1.drop (cmd1.length - (s.curs + 1)) ++ escSeq (s.curs : Int) 'D')
  else ({ s with cmd := s.cmd ++ [b] }, [b])

/-- Backspace (lines 184-196). -/
def backspaceKey (s : Session) : Session × Str :=
  if s.cmd = [] then (s, [])
  else if s.curs ≠ 0 then
    let n := s.cmd.length
    let cmd1 := s.cmd.take (n - (s.curs + 1)) ++ s.cmd.drop (n - s.curs)
    ({ s with cmd := cmd1 },
      str "\x08\x1B[K" ++ cmd1.drop (cmd1.length - s.curs) ++ escSeq (s.curs : Int) 'D')
  else ({ s with cmd := s.cmd.dropLast }, str "\x08 \x08")

/-- One unit of main-loop input: either a single byte, or an ESC byte
whose two continuation characters (read separately by read(2), without
touching the debounce state) are carried alongside. -/
inductive KeyIn where
  | byte (b : Char)
  | esc (key : Str)
deriving Repr, DecidableEq

/-- The byte value recorded into the debounce state for an input. -/
def keyCode : KeyIn → Nat
  | .byte b => b.toNat
  | .esc _ => 27

/-- What one loop iteration decided: keep editing, ignore the byte,
submit the finished line (breaking to a new prompt), abort the line on
Ctrl-C, leave the REPL on Ctrl-D, finish paste mode, or hit the
unreachable None-slot reload in history navigation. -/
inductive Act where
  | edit
  | ignored
  | submitted (cmd : Str)
  | interrupted
  | exited
  | pasteFin (cmd : Str)
  | crashed
deriving Repr, DecidableEq

/-- One iteration of the inner read loop of task (lines 149-270): update
the debounce state from the incoming byte, then dispatch on its value.
Returns the new state, the decision, and the characters written to the
output stream (the repr of an execute result is not part of this trace). -/
def step (s : Session) (k : KeyIn) (tN : Int) : Session × Act × Str :=
  let pc := s.c
  let pt := s.t
  let s1 := { s with c := keyCode k, t := tN }
  match k with
  | .byte b =>
    let cb := b.toNat
    if cb < 32 ∨ 126 < cb then
      if cb = 10 then
        if s.paste then ({ s1 with cmd := s.cmd ++ [b] }, .edit, [b])
        else if pc = 10 ∧ tN - pt < 20 then (s1, .ignored, [])
        else
          let o1 := if s.curs ≠ 0 then escSeq (s.curs : Int) 'C' else []
          let s2 := { s1 with curs := 0 }
          if s.cmd ≠ [] then (pushHist s2, .submitted s.cmd, o1 ++ [Char.ofNat 10])
          else (s2, .submitted [], o1 ++ [Char.ofNat 10])
      else if cb = 8 ∨ cb = 127 then
        let r := backspaceKey s1
        (r.1, .edit, r.2)
      else if cb = 1 ∨ cb = 2 then (s1, .ignored, [])
      else if cb = 3 then
        if s.paste then (s1, .interrupted, [])
        else (s1, .interrupted, [Char.ofNat 10])
      else if cb = 4 then
        if s.paste then (s1, .pasteFin s.cmd, [])
        else (s1, .exited, [Char.ofNat 10])
      else if cb = 5 then
        ({ s1 with paste := true }, .edit, str "paste mode; Ctrl-C to cancel, Ctrl-D to finish\n===\n")
      else (s1, .ignored, [])
    else
      let r := insertChar s1 b
      (r.1, .edit, r.2)
  | .esc key =>
    if key = str "[A" ∨ key = str "[B" then
      match navHist (key = str "[A") s1 with
      | some r => (r.1, .edit, r.2)
      | none => (s1, .crashed, [])
    else if key = str "[D" then
      let r := moveLeft s1
      (r.1, .edit, r.2)
    else if key = str "[C" then
      let r := moveRight s1
      (r.1, .edit, r.2)
    else if key = str "[H" then
      let r := homeKey s1
      (r.1, .edit, r.2)
    else if key = str "[F" then
      let r := endKey s1
      (r.1, .edit, r.2)
    else (s1, .ignored, [])

/-- Driving the loop over a whole input trace, including the outer-loop
reset on a finished line (lines 143-148: hist_b, cmd, paste and curs are
reinitialised for the next prompt; the debounce state c / t persists).
The prompt text itself is omitted from the collected output. -/
def runLoop : Session → List (KeyIn × Int) → Session × List Act × Str
  | s, [] => (s, [], [])
  | s, (k, tN) :: rest =>
    let r := step s k tN
    match r.2.1 with
    | Act.exited => (r.1, [Act.exited], r.2.2)
    | Act.crashed => (r.1, [Act.crashed], r.2.2)
    | Act.submitted cm =>
      let r2 := runLoop { r.1 with hist_b := 0, cmd := [], paste := false, curs := 0 } rest
      (r2.1, Act.submitted cm :: r2.2.1, r.2.2 ++ r2.2.2)
    | Act.interrupted =>
      let r2 := runLoop { r.1 with hist_b := 0, cmd := [], paste := false, curs := 0 } rest
      (r2.1, Act.interrupted :: r2.2.1, r.2.2 ++ r2.2.2)
    | Act.pasteFin cm =>
      let r2 := runLoop { r.1 with hist_b := 0, cmd := [], paste := false, curs := 0 } rest
      (r2.1, Act.pasteFin cm :: r2.2.1, r.2.2 ++ r2.2.2)
    | a =>
      let r2 := runLoop r.1 rest
      (r2.1, a :: r2.2.1, r.2.2 ++ r2.2.2)

/-! ## The execution coordinator (function execute, lines 42-116) -/

/-- A raised Python error, abstracted to what the handlers of execute
test: its type name, its string form, and its position in the class
hierarchy (instance of Exception, of asyncio.CancelledError, of
KeyboardInterrupt, of SyntaxError). -/
structure PyErr where
  name : String
  msg : String
  isException : Bool
  isCancelled : Bool
  isKeyboardInterrupt : Bool
  isSyntaxError : Bool
deriving Repr, DecidableEq

/-- Outcome of one evaluator call: a value, or a raised error. -/
inductive EvalRes where
  | value (v : String)
  | raises (e : PyErr)
deriving Repr, DecidableEq

/-- Which of the three top-level branches of execute runs. -/
inductive Path where
  | skip
  | concurrent
  | direct
deriving Repr, DecidableEq

/-- Branch selection of execute (lines 43 and 47): nothing for blank
input, the cancellable-task path when the text contains the token
"await " and the direct path otherwise. -/
def execPath (code : Str) : Path :=
  if pyStrip code = [] then .skip
  else if pyIn (str "await ") code then .concurrent
  else .direct

/-- Observable actions of execute, in program order: creating the
exec task, starting the watcher, installing and restoring the os.dupterm
mirror, awaiting the task, toggling micropython.kbd_intr, and the
eval / exec calls of the direct path. -/
inductive ExecEv where
  | submitTask
  | startWatcher
  | installMirror
  | awaitTask
  | restoreMirror
  | cancelWatcher
  | kbdIntrOn
  | kbdIntrOff
  | evalCall
  | execCall
deriving Repr, DecidableEq

/-- Result of one run of execute: the returned value (none models the
Python None return), an error escaping the call, the lines printed by the
outer exception handler, the event trace, and the dupterm target left
installed on exit. -/
structure ExecOut where
  retval : Option String
  raised : Option PyErr
  printed : List String
  events : List ExecEv
  duptermAfter : Option String
deriving Repr, DecidableEq

/-- The report format of the outer handler (line 116). -/
def errLine (e : PyErr) : String := e.name ++ ": " ++ e.msg

/-- Shallow embedding of execute.  Parameters: the source text, whether
out_stream is sys.stdout, the dupterm target installed before the call,
and the outcomes of the awaited task, the eval call and the exec call
(each used only when its path reaches it). -/
def runExecute (code : Str) (outIsStdout : Bool) (dtBefore : Option String)
    (taskRes evalRes execRes : EvalRes) : ExecOut :=
  match execPath code with
  | .skip =>
    { retval := none, raised := none, printed := [], events := [], duptermAfter := dtBefore }
  | .concurrent =>
    let prev : Option String := if outIsStdout then none else dtBefore
    let evs := [ExecEv.submitTask, ExecEv.startWatcher]
        ++ (if outIsStdout then [] else [ExecEv.installMirror])
        ++ [ExecEv.awaitTask, ExecEv.restoreMirror, ExecEv.cancelWatcher]
    match taskRes with
    | .value v =>
      { retval := some v, raised := none, printed := [], events := evs, duptermAfter := prev }
    | .raises e =>
      if e.isCancelled then
        { retval := none, raised := none, printed := [], events := evs, duptermAfter := prev }
      else if e.isException then
        { retval := none, raised := none, printed := [errLine e], events := evs,
          duptermAfter := prev }
      else
        { retval := none, raised := some e, printed := [], events := evs, duptermAfter := prev }
  | .direct =>
    let prev : Option String := if outIsStdout then none else dtBefore
    let pre := (if outIsStdout then [] else [ExecEv.installMirror])
        ++ [ExecEv.kbdIntrOn, ExecEv.evalCall]
    let post := [ExecEv.restoreMirror, ExecEv.kbdIntrOff]
    match evalRes with
    | .value v =>
      { retval := some v, raised := none, printed := [], events := pre ++ post,
        duptermAfter := prev }
    | .raises e =>
      if e.isSyntaxError then
        match execRes with
        | .value _ =>
          { retval := none, raised := none, printed := [],
            events := pre ++ [ExecEv.execCall] ++ post, duptermAfter := prev }
        | .raises e2 =>
          if e2.isKeyboardInterrupt then
            { retval := none, raised := none, printed := [],
              events := pre ++ [ExecEv.execCall] ++ post, duptermAfter := prev }
          else if e2.isException then
            { retval := none, raised := none, printed := [errLine e2],
              events := pre ++ [ExecEv.execCall] ++ post, duptermAfter := prev }
          else
            { retval := none, raised := some e2, printed := [],
              events := pre ++ [ExecEv.execCall] ++ post, duptermAfter := prev }
      else if e.isKeyboardInterrupt then
        { retval := none, raised := none, printed := [], events := pre ++ post,
          duptermAfter := prev }
      else if e.isException then
        { retval := none, raised := none, printed := [errLine e], events := pre ++ post,
          duptermAfter := prev }
      else
        { retval := none, raised := some e, printed := [], events := pre ++ post,
          duptermAfter := prev }

/-! ## Helper iterators for history navigation claims -/

/-- State after pushing a list of commands as successive submitted lines. -/
def pushedState (cs : List Str) : Session :=
  cs.foldl (fun s cd => pushHist { s with cmd := cd }) initSession

/-- Iterated history-up navigation. -/
def navPrevN : Nat → Session → Option Session
  | 0, s => some s
  | n + 1, s => (navHist true s).bind fun r => navPrevN n r.1

/-- Iterated history-down navigation. -/
def navNextN : Nat → Session → Option Session
  | 0, s => some s
  | n + 1, s => (navHist false s).bind fun r => navNextN n r.1

/-- Buffer contents observed after each of n successive history-up
navigations. -/
def navTracePrev : Nat → Session → Option (List Str)
  | 0, _ => some []
  | n + 1, s =>
    match navHist true s with
    | some r => (navTracePrev n r.1).map fun l => r.1.cmd :: l
    | none => none

/-! ## Concrete input traces and sample values used by individual claims -/

/-- Keystrokes: submit the one-character command x, type abcde, press
Home (cursor offset becomes 5), then history-up, which replaces the
buffer with the recalled shorter entry x while leaving curs at 5. -/
def c1_trace : List (KeyIn × Int) :=
  [(.byte 'x', 0), (.byte '\n', 30), (.byte 'a', 60), (.byte 'b', 90), (.byte 'c', 120),
   (.byte 'd', 150), (.byte 'e', 180), (.esc (str "[H"), 210), (.esc (str "[A"), 240)]

/-- Keystrokes: submit zz, type abc, move the cursor left twice; the
state reached has buffer abc, cursor offset 2 and one history entry. -/
def c2_trace : List (KeyIn × Int) :=
  [(.byte 'z', 0), (.byte 'z', 30), (.byte '\n', 60), (.byte 'a', 90), (.byte 'b', 120),
   (.byte 'c', 150), (.esc (str "[D"), 180), (.esc (str "[D"), 210)]

/-- Keystrokes: submit the command a, then press history-up at the fresh
(empty) prompt; the stash writes the empty buffer into ring slot 1. -/
def c3_trace : List (KeyIn × Int) :=
  [(.byte 'a', 0), (.byte '\n', 30), (.esc (str "[A"), 60)]

/-- Two linefeeds 10 ms apart after submitting ab. -/
def c7_trace_fast : List (KeyIn × Int) :=
  [(.byte 'a', 0), (.byte 'b', 5), (.byte '\n', 100), (.byte '\n', 110)]

/-- Two linefeeds 30 ms apart after submitting ab. -/
def c7_trace_slow : List (KeyIn × Int) :=
  [(.byte 'a', 0), (.byte 'b', 5), (.byte '\n', 100), (.byte '\n', 130)]

/-- A session one debounce-relevant step before a second linefeed. -/
def c7_sample : Session := { initSession with c := 10, t := 100 }

/-- Keystrokes: submit abc, recall it with history-up, erase one
character, type X (the recalled entry is now edited to abX), then press
history-up again: the stash overwrites the retained entry abc. -/
def c10_trace : List (KeyIn × Int) :=
  [(.byte 'a', 0), (.byte 'b', 30), (.byte 'c', 60), (.byte '\n', 90),
   (.esc (str "[A"), 120), (.byte '\x7F', 150), (.byte 'X', 180), (.esc (str "[A"), 210)]

/-- A session with one retained entry q and in-progress text w, about to
navigate. -/
def c10_sample : Session :=
  { initSession with
    hist := [some (str "q"), none, none, none, none, none],
    hist_i := 1, hist_n := 1, cmd := str "w" }

/-- A sample session for the cursor-movement witness. -/
def c9_sample : Session := { initSession with cmd := str "abc", curs := 1 }

/-- Event trace of execute on a command containing the suspension token,
with a non-default out_stream, when the task completes normally. -/
def c4_sample_events : List ExecEv :=
  (runExecute (str "await x") false (some "tty") (.value "1") (.value "1") (.value "1")).events

/-- A raised error outside the Exception hierarchy, as produced by
evaluating sys.exit(). -/
def sysExitErr : PyErr :=
  { name := "SystemExit", msg := "", isException := false, isCancelled := false,
    isKeyboardInterrupt := false, isSyntaxError := false }

/-- An ordinary evaluator error, instance of Exception. -/
def zeroDivErr : PyErr :=
  { name := "ZeroDivisionError", msg := "divide by zero", isException := true,
    isCancelled := false, isKeyboardInterrupt := false, isSyntaxError := false }

/-! ## Shared helper lemmas -/

/-- The ring index is always below the capacity 6. -/
lemma histIdx_lt_six (i b : Nat) : histIdx i b < 6 := by
  unfold histIdx
  omega

/-- Reading back the slot just written, within bounds. -/
lemma getD_set_self (l : List (Option Str)) (i : Nat) (v : Option Str) (h : i < l.length) :
    (l.set i v).getD i none = v := by
  rw [List.getD_eq_getElem?_getD, List.getElem?_set_eq_of_lt _ h]
  rfl

/-- Inversion of a successful history navigation: the ring equals the old
ring with the current command stashed at depth hist_b, the depth moved one
step (clamped), and the debounce state untouched. -/
lemma navHist_some_parts {isP : Bool} {s : Session} {r : Session × Str}
    (h : navHist isP s = some r) :
    r.1.hist = s.hist.set (histIdx s.hist_i s.hist_b) (some s.cmd)
    ∧ r.1.hist_b = (if isP then min s.hist_n (s.hist_b + 1) else s.hist_b - 1)
    ∧ r.1.c = s.c ∧ r.1.t = s.t := by
  unfold navHist at h
  split at h <;> rename_i hisP <;> dsimp only at h <;> split at h
  · cases h
    simp [hisP]
  · cases h
  · cases h
    simp [hisP]
  · cases h

/-- moveLeft does not touch the debounce state. -/
lemma moveLeft_ct (s : Session) : (moveLeft s).1.c = s.c ∧ (moveLeft s).1.t = s.t := by
  unfold moveLeft
  split <;> exact ⟨rfl, rfl⟩

/-- moveRight does not touch the debounce state. -/
lemma moveRight_ct (s : Session) : (moveRight s).1.c = s.c ∧ (moveRight s).1.t = s.t := by
  unfold moveRight
  split <;> exact ⟨rfl, rfl⟩

/-- insertChar does not touch the debounce state. -/
lemma insertChar_ct (s : Session) (b : Char) :
    (insertChar s b).1.c = s.c ∧ (insertChar s b).1.t = s.t := by
  unfold insertChar
  split <;> exact ⟨rfl, rfl⟩

/-- backspaceKey does not touch the debounce state. -/
lemma backspaceKey_ct (s : Session) :
    (backspaceKey s).1.c = s.c ∧ (backspaceKey s).1.t = s.t := by
  unfold backspaceKey
  split
  · exact ⟨rfl, rfl⟩
  · split <;> exact ⟨rfl, rfl⟩

/-- A word on whitespace: a string whose strip is empty cannot contain
the token "await " as a substring. -/
lemma pyIn_await_ne_blank (code : Str) (h : pyIn (str "await ") code = true) :
    pyStrip code ≠ [] := by
  intro hb
  unfold pyStrip at hb
  rw [List.reverse_eq_nil_iff, List.dropWhile_eq_nil_iff] at hb
  have hall : ∀ ch ∈ code, isPySpace ch = true := by
    intro ch hch
    rw [← List.takeWhile_append_dropWhile isPySpace code] at hch
    rcases List.mem_append.mp hch with h1 | h2
    · exact List.mem_takeWhile_imp h1
    · exact hb ch (List.mem_reverse.mpr h2)
  unfold pyIn at h
  rw [List.any_eq_true] at h
  obtain ⟨tl, htl, hpre⟩ := h
  rw [List.isPrefixOf_iff_prefix] at hpre
  have hmem : 'a' ∈ code := by
    have h1 : 'a' ∈ str "await " := by decide
    exact ((List.mem_tails tl code).mp htl).subset (hpre.subset h1)
  exact absurd (hall 'a' hmem) (by decide)

/-! ## Claim theorems -/

/-- C1.  The claimed invariant 0 ≤ cursor ≤ len(buffer) is broken by the
code: history navigation replaces the buffer without touching curs.  On
the reachable trace c1_trace (submit x, type abcde, Home, history-up) the
final state has buffer x of length 1 but cursor offset 5, so the cursor
offset exceeds the buffer length. -/
theorem c1_cursor_invariant_bug :
    (runLoop initSession c1_trace).1.cmd = str "x"
    ∧ (runLoop initSession c1_trace).1.curs = 5
    ∧ ¬ (runLoop initSession c1_trace).1.curs ≤ (runLoop initSession c1_trace).1.cmd.length := by
  decide

/-- C2.  On the reachable state left by c2_trace (buffer abc, cursor
offset 2, one history entry zz), the history-up event does emit the
erase sequence backspace × 3, space × 3, backspace × 3 followed by the
redraw of the recalled text zz, but it leaves the cursor offset at 2
instead of resetting it to 0 as the claim states. -/
theorem c2_history_nav_no_cursor_reset :
    (navHist true (runLoop initSession c2_trace).1).map (fun r => (r.1.curs, r.1.cmd, r.2))
      = some (2, str "zz", str "\x08\x08\x08   \x08\x08\x08zz") := by
  decide

/-- C3 counterexample.  After submitting the command a and pressing
history-up at the fresh empty prompt (trace c3_trace), ring slot 1 holds
the empty string: the stash of the navigation event wrote the empty
buffer into the ring, contradicting the claim that no slot of the
history ring ever holds the empty string. -/
theorem c3_empty_string_in_ring :
    (runLoop initSession c3_trace).1.hist.getD 1 none = some [] := by
  decide

/-- C3 amended.  The push performed on line submission never stores an
empty command (an empty buffer leaves the ring unchanged, a non-empty
buffer is stored verbatim at hist_i), but the stash performed by history
navigation writes the current buffer verbatim into the slot at
(hist_i - hist_b) mod capacity, empty or not. -/
theorem c3_push_and_stash : ∀ (s : Session) (tN : Int),
    (s.paste = false → s.cmd = [] → (step s (.byte '\n') tN).1.hist = s.hist)
    ∧ (s.paste = false → ¬ (s.c = 10 ∧ tN - s.t < 20) → s.cmd ≠ [] →
        (step s (.byte '\n') tN).1.hist = s.hist.set s.hist_i (some s.cmd))
    ∧ (∀ isP : Bool, (navHist isP s).isSome = true →
        (navHist isP s).map (fun r => r.1.hist)
          = some (s.hist.set (histIdx s.hist_i s.hist_b) (some s.cmd))) := by
  intro s tN
  refine ⟨?_, ?_, ?_⟩
  · intro hp hcmd
    by_cases hdb : s.c = 10 ∧ tN - s.t < 20 <;>
      simp [step, keyCode, show ('\n').toNat = 10 from rfl, hp, hcmd, hdb]
  · intro hp hdb hcmd
    simp [step, keyCode, show ('\n').toNat = 10 from rfl, hp, hcmd, hdb, pushHist]
  · intro isP hsome
    obtain ⟨r, heq⟩ := Option.isSome_iff_exists.mp hsome
    rw [heq, Option.map_some']
    exact congrArg some (navHist_some_parts heq).1

/-- C3 witness: submitting a linefeed on an empty buffer from the initial
state leaves the history ring unchanged. -/
theorem c3_push_and_stash_witness :
    (step initSession (.byte '\n') 0).1.hist = initSession.hist :=
  (c3_push_and_stash initSession 0).1 rfl rfl

/-- C9.  moveLeft increments curs exactly when curs < len(cmd) - 1 over
the integers (hence a no-op on buffers of length 0 or 1), moveRight
decrements exactly when curs > 0, and moveLeft followed by moveRight is
the identity on curs away from the boundary (and at curs = 0, where
either both apply or both are no-ops). -/
theorem c9_move_left_right : ∀ s : Session,
    ((s.curs : Int) < (s.cmd.length : Int) - 1 → (moveLeft s).1.curs = s.curs + 1)
    ∧ (¬ (s.curs : Int) < (s.cmd.length : Int) - 1 → (moveLeft s).1 = s)
    ∧ (s.cmd.length ≤ 1 → (moveLeft s).1 = s)
    ∧ (0 < s.curs → (moveRight s).1.curs = s.curs - 1)
    ∧ (s.curs = 0 → (moveRight s).1 = s)
    ∧ ((s.curs : Int) < (s.cmd.length : Int) - 1 ∨ s.curs = 0 →
        (moveRight (moveLeft s).1).1.curs = s.curs) := by
  intro s
  refine ⟨?_, ?_, ?_, ?_, ?_, ?_⟩
  · intro h
    simp [moveLeft, h]
  · intro h
    simp [moveLeft, h]
  · intro h
    have hlt : ¬ (s.curs : Int) < (s.cmd.length : Int) - 1 := by omega
    simp [moveLeft, hlt]
  · intro h
    simp [moveRight, show s.curs ≠ 0 by omega]
  · intro h
    simp [moveRight, h]
  · intro h
    rcases h with h | h
    · simp [moveLeft, moveRight, h]
    · by_cases h2 : (s.curs : Int) < (s.cmd.length : Int) - 1
      · have h3 : 1 < s.cmd.length := by omega
        simp [moveLeft, moveRight, h, h3]
      · have h3 : ¬ 1 < s.cmd.length := by omega
        simp [moveLeft, moveRight, h, h3]

/-- C9 witness: on buffer abc with cursor offset 1, moveLeft then
moveRight returns the offset to 1. -/
theorem c9_move_left_right_witness :
    (moveRight (moveLeft c9_sample).1).1.curs = c9_sample.curs :=
  (c9_move_left_right c9_sample).2.2.2.2.2 (Or.inl (by decide))

/-- C10.  Every history-navigation event (not only the first of a
browsing sequence) writes the current buffer into the ring slot at
(hist_i - hist_b) mod capacity and only then adjusts the browse depth;
consequently on trace c10_trace (submit abc, recall it, edit it into
abX, navigate again) the retained entry at slot 0, previously abc, ends
up overwritten with the edited text abX. -/
theorem c10_stash_every_nav :
    (∀ (s : Session) (isP : Bool), s.hist.length = 6 → (navHist isP s).isSome = true →
      (navHist isP s).map (fun r => r.1.hist.getD (histIdx s.hist_i s.hist_b) none)
        = some (some s.cmd)
      ∧ (navHist isP s).map (fun r => r.1.hist_b)
        = some (if isP then min s.hist_n (s.hist_b + 1) else s.hist_b - 1))
    ∧ (runLoop initSession (c10_trace.take 7)).1.hist.getD 0 none = some (str "abc")
    ∧ (runLoop initSession c10_trace).1.hist.getD 0 none = some (str "abX") := by
  refine ⟨?_, by decide, by decide⟩
  intro s isP h6 hsome
  obtain ⟨r, heq⟩ := Option.isSome_iff_exists.mp hsome
  obtain ⟨h1, h2, _, _⟩ := navHist_some_parts heq
  rw [heq, Option.map_some', Option.map_some']
  constructor
  · rw [h1, getD_set_self _ _ _ (by rw [h6]; exact histIdx_lt_six _ _)]
  · rw [h2]

/-- C10 witness: navigating up from a session with one retained entry q
and buffer w stashes w at the depth-0 slot and moves the depth to 1. -/
theorem c10_stash_every_nav_witness :
    (navHist true c10_sample).map
        (fun r => r.1.hist.getD (histIdx c10_sample.hist_i c10_sample.hist_b) none)
      = some (some c10_sample.cmd)
    ∧ (navHist true c10_sample).map (fun r => r.1.hist_b)
      = some (if true then min c10_sample.hist_n (c10_sample.hist_b + 1)
          else c10_sample.hist_b - 1) :=
  c10_stash_every_nav.1 c10_sample true (by decide) (by decide)

set_option maxHeartbeats 1600000 in
/-- C8.  After pushing k < 6 non-empty commands and typing an in-progress
text, k successive history-up navigations yield the pushed commands in
reverse order, one further history-up at maximum depth stays on the
oldest entry, and k history-down navigations return the buffer to the
stashed in-progress text. -/
theorem c8_history_roundtrip : ∀ (cs : List Str) (s0 : Str), cs.length < 6 →
    (∀ cd ∈ cs, cd ≠ []) →
    navTracePrev cs.length { pushedState cs with cmd := s0 } = some cs.reverse
    ∧ (navPrevN (cs.length + 1) { pushedState cs with cmd := s0 }).map Session.cmd
        = some (cs.headD s0)
    ∧ ((navPrevN cs.length { pushedState cs with cmd := s0 }).bind
        (navNextN cs.length)).map Session.cmd = some s0 := by
  intro cs s0 hlen _
  rcases cs with _ | ⟨a1, _ | ⟨a2, _ | ⟨a3, _ | ⟨a4, _ | ⟨a5, _ | ⟨a6, rest⟩⟩⟩⟩⟩⟩
  · refine ⟨?_, ?_, ?_⟩ <;>
      simp [navTracePrev, navPrevN, navNextN, navHist, pushedState, pushHist, initSession,
        histIdx]
  · refine ⟨?_, ?_, ?_⟩ <;>
      simp [navTracePrev, navPrevN, navNextN, navHist, pushedState, pushHist, initSession,
        histIdx]
  · refine ⟨?_, ?_, ?_⟩ <;>
      simp [navTracePrev, navPrevN, navNextN, navHist, pushedState, pushHist, initSession,
        histIdx]
  · refine ⟨?_, ?_, ?_⟩ <;>
      simp [navTracePrev, navPrevN, navNextN, navHist, pushedState, pushHist, initSession,
        histIdx]
  · refine ⟨?_, ?_, ?_⟩ <;>
      simp [navTracePrev, navPrevN, navNextN, navHist, pushedState, pushHist, initSession,
        histIdx]
  · refine ⟨?_, ?_, ?_⟩ <;>
      simp [navTracePrev, navPrevN, navNextN, navHist, pushedState, pushHist, initSession,
        histIdx]
  · simp only [List.length_cons] at hlen
    omega

/-- C8 witness: pushing a then b with in-progress text z, two ups yield
b then a, a third up stays on a, and two downs return to z. -/
theorem c8_history_roundtrip_witness :
    navTracePrev 2 { pushedState [str "a", str "b"] with cmd := str "z" }
      = some [str "b", str "a"]
    ∧ (navPrevN 3 { pushedState [str "a", str "b"] with cmd := str "z" }).map Session.cmd
      = some (str "a")
    ∧ ((navPrevN 2 { pushedState [str "a", str "b"] with cmd := str "z" }).bind
        (navNextN 2)).map Session.cmd = some (str "z") :=
  c8_history_roundtrip [str "a", str "b"] (str "z") (by decide) (by decide)

/-- One loop iteration on a linefeed outside paste mode is a pure no-op
(byte ignored) exactly under the debounce condition: the previous
main-loop byte was 0x0A and arrived less than 20 ms earlier. -/
lemma lf_suppression (s : Session) (tN : Int) (hp : s.paste = false) :
    (step s (.byte '\n') tN).2.1 = Act.ignored ↔ s.c = 10 ∧ tN - s.t < 20 := by
  by_cases hdb : s.c = 10 ∧ tN - s.t < 20
  · simp [step, keyCode, show ('\n').toNat = 10 from rfl, hp, hdb]
  · by_cases hcmd : s.cmd = [] <;>
      simp [step, keyCode, show ('\n').toNat = 10 from rfl, hp, hdb, hcmd]

/-- Every loop iteration records the incoming byte and its timestamp
into the debounce state c / t, whatever else it does. -/
lemma step_updates_ct : ∀ (s : Session) (k : KeyIn) (tN : Int),
    (step s k tN).1.c = keyCode k ∧ (step s k tN).1.t = tN := by
  intro s k tN
  cases k with
  | byte b =>
    unfold step
    dsimp only
    split_ifs <;>
      first
        | exact ⟨rfl, rfl⟩
        | exact backspaceKey_ct _
        | exact insertChar_ct _ _
  | esc key =>
    unfold step
    dsimp only
    split_ifs
    · split
      next r heq => exact ⟨(navHist_some_parts heq).2.2.1, (navHist_some_parts heq).2.2.2⟩
      next heq => exact ⟨rfl, rfl⟩
    · exact moveLeft_ct _
    · exact moveRight_ct _
    · exact ⟨rfl, rfl⟩
    · exact ⟨rfl, rfl⟩
    · exact ⟨rfl, rfl⟩

/-- C7.  A linefeed outside paste mode is suppressed (treated as
ignored, submitting nothing) iff the previous main-loop byte was also
0x0A and arrived less than 20 ms earlier; the debounce state is updated
on every incoming byte regardless; hence on c7_trace_fast the two
linefeeds 10 ms apart submit exactly one line, while on c7_trace_slow
the two linefeeds 30 ms apart submit two (the second against an empty
buffer). -/
theorem c7_crlf_debounce :
    (∀ (s : Session) (tN : Int), s.paste = false →
      ((step s (.byte '\n') tN).2.1 = Act.ignored ↔ s.c = 10 ∧ tN - s.t < 20))
    ∧ (∀ (s : Session) (k : KeyIn) (tN : Int),
        (step s k tN).1.c = keyCode k ∧ (step s k tN).1.t = tN)
    ∧ (runLoop initSession c7_trace_fast).2.1
        = [Act.edit, Act.edit, Act.submitted (str "ab"), Act.ignored]
    ∧ (runLoop initSession c7_trace_slow).2.1
        = [Act.edit, Act.edit, Act.submitted (str "ab"), Act.submitted []] :=
  ⟨lf_suppression, step_updates_ct, by decide, by decide⟩

/-- C7 witness: with previous byte 0x0A at time 100, a linefeed at time
110 is suppressed. -/
theorem c7_crlf_debounce_witness :
    (step c7_sample (KeyIn.byte '\n') 110).2.1 = Act.ignored :=
  (c7_crlf_debounce.1 c7_sample 110 rfl).mpr (by decide)

/-- C6.  execute takes the concurrent path exactly when the source text
contains the token "await "; on that path an import line or a bare
single-equals assignment line is prefixed with a global declaration of
the bound name, a line with no assignment is wrapped in return, and a
line containing an assignment is left to run for effect only. -/
theorem c6_concurrent_classification : ∀ code : Str,
    (execPath code = Path.concurrent ↔ pyIn (str "await ") code = true)
    ∧ (∀ nm, (matchImport code <|> matchFromImport code) = some nm →
        asyncBody code = str "global " ++ nm ++ str "\n    " ++ code)
    ∧ ((matchImport code <|> matchFromImport code) = none →
        ∀ nm, matchGlobal code = some nm →
        asyncBody code = str "global " ++ nm ++ str "\n    " ++ code)
    ∧ ((matchImport code <|> matchFromImport code) = none → matchGlobal code = none →
        hasAssign code = false → asyncBody code = str "return " ++ code)
    ∧ ((matchImport code <|> matchFromImport code) = none → matchGlobal code = none →
        hasAssign code = true → asyncBody code = code) := by
  intro code
  refine ⟨⟨?_, ?_⟩, ?_, ?_, ?_, ?_⟩
  · intro hcp
    unfold execPath at hcp
    by_cases h1 : pyStrip code = []
    · rw [if_pos h1] at hcp
      exact absurd hcp (by decide)
    · rw [if_neg h1] at hcp
      by_cases h2 : pyIn (str "await ") code = true
      · exact h2
      · rw [if_neg h2] at hcp
        exact absurd hcp (by decide)
  · intro hin
    unfold execPath
    rw [if_neg (pyIn_await_ne_blank code hin), if_pos hin]
  · intro nm hm
    simp [asyncBody, hm]
  · intro h0 nm hg
    simp [asyncBody, h0, hg]
  · intro h0 hg ha
    simp [asyncBody, h0, hg, ha]
  · intro h0 hg ha
    simp [asyncBody, h0, hg, ha]

/-- C6 witness: a line containing the token takes the concurrent path,
and an import line is rewritten with a global declaration of the
imported name. -/
theorem c6_concurrent_classification_witness :
    execPath (str "await 1") = Path.concurrent
    ∧ asyncBody (str "import os") = str "global " ++ str "os" ++ str "\n    " ++ str "import os" :=
  ⟨(c6_concurrent_classification (str "await 1")).1.mpr (by decide),
   (c6_concurrent_classification (str "import os")).2.1 (str "os") (by decide)⟩

/-- C4 counterexample.  On the concurrent path the event trace of
execute is submit, start watcher, install mirror, await, restore,
cancel watcher: the mirror is installed after the command has been
submitted to the evaluator, not before, refuting the claimed ordering
at this input. -/
theorem c4_mirror_installed_after_submit :
    c4_sample_events
      = [ExecEv.submitTask, ExecEv.startWatcher, ExecEv.installMirror,
         ExecEv.awaitTask, ExecEv.restoreMirror, ExecEv.cancelWatcher]
    ∧ ¬ c4_sample_events.indexOf ExecEv.installMirror
        < c4_sample_events.indexOf ExecEv.submitTask := by
  decide

/-- C4 amended.  When out_stream differs from the default output, the
concurrent path installs the mirror after submitting the task but before
awaiting it, the direct path installs it before the eval call, and on
every exit path of either branch (value, evaluator error of any kind, or
cancellation) the previously installed dupterm destination is restored;
with the default out_stream no install event occurs. -/
theorem c4_mirror_restore : ∀ (code : Str) (dtB : Option String) (tr er xr : EvalRes),
    (execPath code = Path.concurrent →
      (runExecute code false dtB tr er xr).events
        = [ExecEv.submitTask, ExecEv.startWatcher, ExecEv.installMirror,
           ExecEv.awaitTask, ExecEv.restoreMirror, ExecEv.cancelWatcher]
      ∧ (runExecute code false dtB tr er xr).duptermAfter = dtB
      ∧ (runExecute code true dtB tr er xr).events
        = [ExecEv.submitTask, ExecEv.startWatcher,
           ExecEv.awaitTask, ExecEv.restoreMirror, ExecEv.cancelWatcher])
    ∧ (execPath code = Path.direct →
      (runExecute code false dtB tr er xr).events.take 3
        = [ExecEv.installMirror, ExecEv.kbdIntrOn, ExecEv.evalCall]
      ∧ ExecEv.restoreMirror ∈ (runExecute code false dtB tr er xr).events
      ∧ (runExecute code false dtB tr er xr).duptermAfter = dtB) := by
  intro code dtB tr er xr
  constructor
  · intro h
    unfold runExecute
    rw [h]
    cases tr with
    | value v => exact ⟨rfl, rfl, rfl⟩
    | raises e =>
      by_cases h1 : e.isCancelled <;> by_cases h2 : e.isException <;> simp [h1, h2]
  · intro h
    unfold runExecute
    rw [h]
    cases er with
    | value v =>
      refine ⟨rfl, ?_, rfl⟩
      simp
    | raises e =>
      by_cases h1 : e.isSyntaxError
      · cases xr with
        | value v => simp [h1]
        | raises e2 =>
          by_cases h3 : e2.isKeyboardInterrupt <;> by_cases h4 : e2.isException <;>
            simp [h1, h3, h4]
      · by_cases h3 : e.isKeyboardInterrupt <;> by_cases h4 : e.isException <;>
          simp [h1, h3, h4]

/-- C4 witness: a concrete concurrent run with a non-default out_stream
and a pre-existing dupterm target shows the event order and the restored
target. -/
theorem c4_mirror_restore_witness :
    (runExecute (str "await x") false (some "tty") (EvalRes.value "1") (EvalRes.value "1")
        (EvalRes.value "1")).events
      = [ExecEv.submitTask, ExecEv.startWatcher, ExecEv.installMirror,
         ExecEv.awaitTask, ExecEv.restoreMirror, ExecEv.cancelWatcher]
    ∧ (runExecute (str "await x") false (some "tty") (EvalRes.value "1") (EvalRes.value "1")
        (EvalRes.value "1")).duptermAfter = some "tty"
    ∧ (runExecute (str "await x") true (some "tty") (EvalRes.value "1") (EvalRes.value "1")
        (EvalRes.value "1")).events
      = [ExecEv.submitTask, ExecEv.startWatcher, ExecEv.awaitTask, ExecEv.restoreMirror,
         ExecEv.cancelWatcher] :=
  (c4_mirror_restore (str "await x") (some "tty") (EvalRes.value "1") (EvalRes.value "1")
    (EvalRes.value "1")).1 (by decide)

/-- C5 counterexample.  An evaluator error outside the Exception
hierarchy, such as the SystemExit raised by sys.exit(), escapes execute:
the raised field of the run is that very error, refuting the claim that
every exception raised by the evaluator is caught inside execute. -/
theorem c5_base_exception_propagates :
    (runExecute (str "sys.exit()") true none (EvalRes.value "") (EvalRes.raises sysExitErr)
        (EvalRes.value "")).raised = some sysExitErr := by
  decide

/-- C5 amended.  Every evaluator error that is an instance of Exception
(and is not swallowed earlier as a cancellation, keyboard interrupt or
retried syntax error) is caught inside execute and reported as the
single printed line "kind: message" built from its type name and string
form, and nothing escapes the call in that case. -/
theorem c5_exception_reporting : ∀ (code : Str) (stdo : Bool) (dtB : Option String)
    (e : PyErr) (er xr : EvalRes),
    (execPath code = Path.concurrent → e.isException = true → e.isCancelled = false →
      (runExecute code stdo dtB (.raises e) er xr).raised = none
      ∧ (runExecute code stdo dtB (.raises e) er xr).printed = [errLine e])
    ∧ (∀ tr, execPath code = Path.direct → e.isException = true →
        e.isKeyboardInterrupt = false → e.isSyntaxError = false →
      (runExecute code stdo dtB tr (.raises e) xr).raised = none
      ∧ (runExecute code stdo dtB tr (.raises e) xr).printed = [errLine e]) := by
  intro code stdo dtB e er xr
  constructor
  · intro h h1 h2
    unfold runExecute
    rw [h]
    simp [h1, h2]
  · intro tr h h1 h2 h3
    unfold runExecute
    rw [h]
    simp [h1, h2, h3]

/-- C5 witness: a ZeroDivisionError raised by the awaited task is
reported as its kind and message and does not escape execute. -/
theorem c5_exception_reporting_witness :
    (runExecute (str "await 1/0") false none (EvalRes.raises zeroDivErr) (EvalRes.value "")
        (EvalRes.value "")).raised = none
    ∧ (runExecute (str "await 1/0") false none (EvalRes.raises zeroDivErr) (EvalRes.value "")
        (EvalRes.value "")).printed = [errLine zeroDivErr] :=
  (c5_exception_reporting (str "await 1/0") false none zeroDivErr (EvalRes.value "")
    (EvalRes.value "")).1 (by decide) rfl rfl

end Aiorepl
